import Mathlib

/-!
Shallow embedding of src/grimoirebots_fastapi/main.py.

Python floats are modelled exactly as rational numbers, Python dicts with
string keys as association lists, pydantic models as Lean structures, and
every HTTP route handler as a pure Lean function.  The one piece of global
state, the lookup table named items, is threaded explicitly through a step
function over an explicit server state, so that statements about sequences
of requests can be made.
-/

namespace Grimoirebots

/-- Pydantic model Image (main.py lines 31-41): url is an HttpUrl, modelled
here as a plain string, and name a string. -/
structure Image where
  url : String
  name : String
deriving DecidableEq

/-- Pydantic model Item (main.py lines 44-64).  The two Field declarations
put the bound ge 0 on price and max_length 300 on description; those
constraints are recorded in Item.valid below, mirroring how pydantic keeps
them outside the plain record. -/
structure Item where
  name : String
  description : Option String := none
  price : Rat
  tax : Option Rat := none
  tags : List String := []
  images : Option (List Image) := none
deriving DecidableEq

/-- Declared constraint on the description field of Item: when present, at
most 300 characters (max_length 300, main.py line 47). -/
def Item.validDescription : Option String → Bool
  | none => true
  | some d => decide (d.length ≤ 300)

/-- Declared field-level constraints of Item: price is bounded below by
zero (ge 0, main.py line 50) and description obeys its length bound. -/
def Item.valid (i : Item) : Bool :=
  decide (0 ≤ i.price) && Item.validDescription i.description

/-- Modelled from the spec: the framework validation layer is not part of
this repository (the spec delegates malformed input entirely to it), so it
is modelled as the function that admits an incoming Item exactly when the
declared field-level constraints of Item hold, and rejects it otherwise so
that it never reaches a handler. -/
def validateItem (raw : Item) : Option Item :=
  if Item.valid raw then some raw else none

/-- Pydantic model Offer (main.py lines 67-71).  Its own fields carry no
Field constraints; only the nested Item values are constrained. -/
structure Offer where
  name : String
  description : Option String := none
  price : Rat
  items : List Item
deriving DecidableEq

/-- Modelled from the spec: schema validation of an Offer checks only the
nested Item records, since no Offer field declares a constraint. -/
def Offer.valid (o : Offer) : Bool :=
  o.items.all Item.valid

/-- Enumeration ModelName (main.py lines 25-28). -/
inductive ModelName where
  | alexnet
  | resnet
  | lenet
deriving DecidableEq

/-- String value carried by each ModelName member. -/
def ModelName.value : ModelName → String
  | .alexnet => "alexnet"
  | .resnet => "resnet"
  | .lenet => "lenet"

/-- UUID path parameter of update_item, modelled as its string form. -/
abbrev UUID := String

/-- Return shape of root: a dict with the single key message. -/
structure MessageDict where
  message : String
deriving DecidableEq

/-- Return shape of read_item: a dict with the single key item. -/
structure ItemDict where
  item : String
deriving DecidableEq

/-- Return shape of get_model: the model name together with a message. -/
structure ModelDict where
  model_name : ModelName
  message : String
deriving DecidableEq

/-- Return shape of read_file: a dict with the single key file_path. -/
structure FileDict where
  file_path : String
deriving DecidableEq

/-- Return shape of create_item: the keys of item.dict() plus the optional
derived key price_with_tax, which is none when the key is absent. -/
structure ItemOut where
  name : String
  description : Option String
  price : Rat
  tax : Option Rat
  tags : List String
  images : Option (List Image)
  price_with_tax : Option Rat
deriving DecidableEq

/-- Return shape of update_item: the received item_id together with the
received item. -/
structure UpdateDict where
  item_id : UUID
  item : Item
deriving DecidableEq

/-- HTTPException as raised by read_item: a status code and a detail. -/
structure HTTPError where
  status_code : Nat
  detail : String
deriving DecidableEq

/-- Global lookup table items (main.py line 86). -/
def items : List (String × String) :=
  [("foo", "The Foo Wrestlers")]

/-- Handler root (GET /, main.py lines 88-90). -/
def root : MessageDict :=
  ⟨"Hello World"⟩

/-- Handler create_index_weights (POST /index-weights/, main.py lines
92-94): echoes the parsed dict of int keys to float values. -/
def create_index_weights (weights : List (Int × Rat)) : List (Int × Rat) :=
  weights

/-- Handler create_offer (POST /offers/, main.py lines 96-98): echoes the
parsed Offer. -/
def create_offer (offer : Offer) : Offer :=
  offer

/-- Handler create_multiple_images (POST /images/multiple/, main.py lines
100-102): echoes the parsed list of Image values. -/
def create_multiple_images (images : List Image) : List Image :=
  images

/-- Handler read_items (GET /items/, main.py lines 104-120): ignores the
query parameter q and returns a fixed two-element list. -/
def read_items (q : Option String) : List Item :=
  [ { name := "Portal Gun", price := 42 },
    { name := "Plumbus", price := 32 } ]

/-- Handler read_item (GET /items/{item_id}, main.py lines 122-128): when
item_id is not a key of the table it raises HTTPException 404 with detail
Item not found, otherwise it returns the dict with key item bound to the
stored value. -/
def read_item (table : List (String × String)) (item_id : String) :
    Except HTTPError ItemDict :=
  match table.lookup item_id with
  | none => .error ⟨404, "Item not found"⟩
  | some v => .ok ⟨v⟩

/-- Handler get_model (GET /models/{model_name}, main.py lines 130-138):
first branch tests identity with alexnet, second branch compares the
member value with the string lenet, and the final return covers resnet. -/
def get_model (model_name : ModelName) : ModelDict :=
  if model_name = ModelName.alexnet then
    ⟨model_name, "Deep Learning FTW!"⟩
  else if model_name.value = "lenet" then
    ⟨model_name, "LeCNN all the images"⟩
  else
    ⟨model_name, "Have some residuals"⟩

/-- Handler read_file (GET /files/{file_path:path}, main.py lines
140-142). -/
def read_file (file_path : String) : FileDict :=
  ⟨file_path⟩

/-- The dict of an Item as produced by item.dict(): all six declared
fields, and no derived key yet. -/
def Item.dict (item : Item) : ItemOut :=
  ⟨item.name, item.description, item.price, item.tax, item.tags,
    item.images, none⟩

/-- Handler create_item (POST /items/, main.py lines 144-164): starts from
item.dict() and, when item.tax is truthy in Python terms, that is present
and nonzero, adds the key price_with_tax bound to price plus tax. -/
def create_item (item : Item) : ItemOut :=
  let item_dict := item.dict
  match item.tax with
  | some tax =>
      if tax ≠ 0 then
        { item_dict with price_with_tax := some (item.price + tax) }
      else
        item_dict
  | none => item_dict

/-- Handler update_item (PUT /items/{item_id}, main.py lines 166-205):
returns the dict holding the received item_id and the received item. -/
def update_item (item_id : UUID) (item : Item) : UpdateDict :=
  ⟨item_id, item⟩

/-- Mutable server state: the one module-level table, items. -/
structure ServerState where
  items : List (String × String)
deriving DecidableEq

/-- State at startup: the table items as initialised on main.py line 86. -/
def initState : ServerState :=
  ⟨items⟩

/-- One request to any of the registered routes, carrying its parsed
parameters and body. -/
inductive Request where
  | root
  | createIndexWeights (weights : List (Int × Rat))
  | createOffer (offer : Offer)
  | createMultipleImages (images : List Image)
  | readItems (q : Option String)
  | readItem (item_id : String)
  | getModel (model_name : ModelName)
  | readFile (file_path : String)
  | createItem (item : Item)
  | updateItem (item_id : UUID) (item : Item)

/-- One response: either the normal return value of the handler that ran,
or the HTTP error it raised. -/
inductive Response where
  | message (d : MessageDict)
  | weights (w : List (Int × Rat))
  | offer (o : Offer)
  | imageList (l : List Image)
  | itemList (l : List Item)
  | itemFound (d : ItemDict)
  | model (d : ModelDict)
  | file (d : FileDict)
  | created (d : ItemOut)
  | updated (d : UpdateDict)
  | error (status_code : Nat) (detail : String)

/-- Dispatch one request to its handler.  Every handler body leaves the
module-level table untouched, as in the source, so the state component is
returned unchanged. -/
def handle (s : ServerState) : Request → ServerState × Response
  | .root => (s, .message root)
  | .createIndexWeights w => (s, .weights (create_index_weights w))
  | .createOffer o => (s, .offer (create_offer o))
  | .createMultipleImages l => (s, .imageList (create_multiple_images l))
  | .readItems q => (s, .itemList (read_items q))
  | .readItem item_id =>
      match read_item s.items item_id with
      | .ok d => (s, .itemFound d)
      | .error e => (s, .error e.status_code e.detail)
  | .getModel m => (s, .model (get_model m))
  | .readFile p => (s, .file (read_file p))
  | .createItem i => (s, .created (create_item i))
  | .updateItem item_id i => (s, .updated (update_item item_id i))

/-- Run a sequence of requests from a given state, keeping the final
state. -/
def runRequests (s : ServerState) (reqs : List Request) : ServerState :=
  reqs.foldl (fun st r => (handle st r).1) s

/-- Whether a response is an HTTP error. -/
def Response.isError : Response → Bool
  | .error _ _ => true
  | _ => false

/-- Whether a request targets the read_item route. -/
def Request.isReadItem : Request → Bool
  | .readItem _ => true
  | _ => false

/-- Dispatching any single request leaves the server state unchanged. -/
theorem handle_fst (s : ServerState) (req : Request) : (handle s req).1 = s := by
  cases req with
  | readItem item_id =>
      simp only [handle]
      cases read_item s.items item_id <;> rfl
  | _ => rfl

/-- C1: read_item on the table items returns the dict binding item to The
Foo Wrestlers exactly when the key is foo, and raises HTTP 404 with detail
Item not found exactly when the key is any other string. -/
theorem C1_read_item_lookup (item_id : String) :
    (read_item items item_id = .ok ⟨"The Foo Wrestlers"⟩ ↔ item_id = "foo") ∧
    (read_item items item_id = .error ⟨404, "Item not found"⟩ ↔ item_id ≠ "foo") := by
  by_cases h : item_id = "foo"
  · simp [read_item, items, List.lookup, h]
  · have hbeq : (item_id == "foo") = false := beq_eq_false_iff_ne.mpr h
    simp [read_item, items, List.lookup, hbeq, h]

/-- C2 counterexample: the item with name Foo, price 1 and tax 0 has its
tax field present (not none), yet create_item returns a structure without
the price_with_tax key, so the claim as stated fails at this input. -/
theorem C2_counterexample :
    Item.valid { name := "Foo", price := 1, tax := some 0 } = true ∧
    ({ name := "Foo", price := 1, tax := some 0 } : Item).tax ≠ none ∧
    (create_item { name := "Foo", price := 1, tax := some 0 }).price_with_tax = none := by
  refine ⟨by decide, by simp, by simp [create_item, Item.dict]⟩

/-- C2 amended: for every valid Item, create_item keeps all six fields of
the received item unchanged, and whenever the tax field is present and
nonzero the result additionally carries price_with_tax equal to price plus
tax. -/
theorem C2_create_item_fields (item : Item) (hv : Item.valid item = true) :
    (create_item item).name = item.name ∧
    (create_item item).description = item.description ∧
    (create_item item).price = item.price ∧
    (create_item item).tax = item.tax ∧
    (create_item item).tags = item.tags ∧
    (create_item item).images = item.images ∧
    (∀ t : Rat, item.tax = some t → t ≠ 0 →
      (create_item item).price_with_tax = some (item.price + t)) := by
  cases htax : item.tax with
  | none => simp [create_item, Item.dict, htax]
  | some t =>
      by_cases h0 : t = 0 <;>
        simp [create_item, Item.dict, htax, h0]

/-- C2 witness: the amended theorem applied to the valid item with name
Foo, price 35 and tax 3 yields the derived value 38. -/
theorem C2_create_item_fields_witness :
    Item.valid { name := "Foo", price := 35, tax := some 3 } = true ∧
    (create_item { name := "Foo", price := 35, tax := some 3 }).price_with_tax =
      some 38 := by
  refine ⟨by decide, ?_⟩
  have h := C2_create_item_fields { name := "Foo", price := 35, tax := some 3 }
    (by decide)
  have h38 := h.2.2.2.2.2.2 3 rfl (by norm_num)
  rw [h38]
  norm_num

/-- C3: the three members of ModelName are exhaustive, and get_model
returns each input together with its canned message: Deep Learning FTW!
for alexnet, LeCNN all the images for lenet, and Have some residuals for
resnet. -/
theorem C3_get_model_messages :
    (∀ m : ModelName, m = .alexnet ∨ m = .lenet ∨ m = .resnet) ∧
    get_model .alexnet = ⟨.alexnet, "Deep Learning FTW!"⟩ ∧
    get_model .lenet = ⟨.lenet, "LeCNN all the images"⟩ ∧
    get_model .resnet = ⟨.resnet, "Have some residuals"⟩ := by
  refine ⟨fun m => ?_, by decide, by decide, by decide⟩
  cases m <;> simp

/-- C4: each echo handler is the identity on its parsed input, and
update_item returns exactly the item_id and Item it received. -/
theorem C4_echo_handlers (offer : Offer) (weights : List (Int × Rat))
    (item_id : UUID) (item : Item) :
    create_offer offer = offer ∧
    create_index_weights weights = weights ∧
    update_item item_id item = ⟨item_id, item⟩ :=
  ⟨rfl, rfl, rfl⟩

/-- C5: the table items is the fixed single-entry mapping from foo to The
Foo Wrestlers, and running any sequence of requests from any state leaves
the state, and hence the table, unchanged. -/
theorem C5_items_never_mutated (s : ServerState) (reqs : List Request) :
    runRequests s reqs = s ∧
    initState.items = [("foo", "The Foo Wrestlers")] := by
  refine ⟨?_, rfl⟩
  induction reqs generalizing s with
  | nil => rfl
  | cons r rs ih =>
      have hstep : (handle s r).1 = s := handle_fst s r
      calc runRequests s (r :: rs) = runRequests (handle s r).1 rs := rfl
        _ = runRequests s rs := by rw [hstep]
        _ = s := ih s

/-- C6: the validation layer accepts an Item exactly when its price is
nonnegative and its description, when present, has length at most 300; an
item violating either constraint is mapped to none and so never reaches a
handler, and an accepted item is passed through unchanged. -/
theorem C6_item_validation (raw : Item) :
    (validateItem raw = some raw ↔
      (0 ≤ raw.price ∧ ∀ d, raw.description = some d → d.length ≤ 300)) ∧
    (validateItem raw = none ↔
      ¬(0 ≤ raw.price ∧ ∀ d, raw.description = some d → d.length ≤ 300)) := by
  have hdesc : Item.validDescription raw.description = true ↔
      ∀ d, raw.description = some d → d.length ≤ 300 := by
    cases hd : raw.description <;> simp [Item.validDescription, hd]
  by_cases h : Item.valid raw = true
  · have hprop := h
    rw [Item.valid, Bool.and_eq_true, decide_eq_true_iff, hdesc] at hprop
    have hsome : validateItem raw = some raw := by simp [validateItem, h]
    rw [hsome]
    exact ⟨⟨fun _ => hprop, fun _ => rfl⟩,
      iff_of_false (by simp) (not_not_intro hprop)⟩
  · have hprop : ¬(0 ≤ raw.price ∧ ∀ d, raw.description = some d → d.length ≤ 300) := by
      intro hc
      exact h (by rw [Item.valid, Bool.and_eq_true, decide_eq_true_iff, hdesc]; exact hc)
    simp [validateItem, h, hprop]

/-- C7: whenever dispatching a request produces an error response, that
request targeted the read_item route; every other handler returns normally
on every input. -/
theorem C7_only_read_item_errors (s : ServerState) (req : Request)
    (h : Response.isError (handle s req).2 = true) :
    Request.isReadItem req = true := by
  cases req with
  | readItem item_id => rfl
  | _ => simp [handle, Response.isError] at h

/-- C7 witness: the request for the missing key bar errors, and it is a
read_item request. -/
theorem C7_only_read_item_errors_witness :
    Response.isError (handle initState (Request.readItem "bar")).2 = true ∧
    Request.isReadItem (Request.readItem "bar") = true :=
  ⟨by decide, C7_only_read_item_errors initState (Request.readItem "bar") (by decide)⟩

/-- C8: for every Item whose tax field is present but equal to zero,
create_item returns a structure without the price_with_tax key, because
the derived branch needs a truthy tax, not merely a present one. -/
theorem C8_tax_zero_no_derived (item : Item) (h : item.tax = some 0) :
    (create_item item).price_with_tax = none := by
  simp [create_item, Item.dict, h]

/-- C8 witness: the theorem applied to the item with name Foo, price 2 and
tax 0. -/
theorem C8_tax_zero_no_derived_witness :
    (create_item { name := "Foo", price := 2, tax := some 0 }).price_with_tax = none :=
  C8_tax_zero_no_derived { name := "Foo", price := 2, tax := some 0 } rfl

/-- C9: read_items returns the same fixed two-element list, Portal Gun at
price 42 and Plumbus at price 32, for every value of the query parameter,
including none; in particular any two query values give equal outputs. -/
theorem C9_read_items_constant (q q1 q2 : Option String) :
    read_items q =
      [ { name := "Portal Gun", price := 42 },
        { name := "Plumbus", price := 32 } ] ∧
    read_items q1 = read_items q2 :=
  ⟨rfl, rfl⟩

/-- C10: the validity of an Offer does not depend on its price field, the
concrete Offer with price minus one and no items passes validation and is
echoed back unchanged by create_offer, while an Item with price minus one
fails validation. -/
theorem C10_offer_price_unconstrained (o : Offer) (p : Rat) :
    Offer.valid { o with price := p } = Offer.valid o ∧
    create_offer o = o ∧
    Offer.valid { name := "n", price := -1, items := [] } = true ∧
    ({ name := "n", price := -1, items := [] } : Offer).price < 0 ∧
    create_offer { name := "n", price := -1, items := [] } =
      { name := "n", price := -1, items := [] } ∧
    Item.valid { name := "n", price := -1 } = false := by
  refine ⟨rfl, rfl, rfl, by norm_num, rfl, by decide⟩

end Grimoirebots
